import Mathlib

/-!
# Route53 Resolver firewall config resource

A shallow embedding of `internal/service/route53resolver/firewall_config.go`:
the lookup helper `FindFirewallConfigByID`, which scans a paginated listing
through a page callback, and the four lifecycle callbacks of the resource
(`resourceFirewallConfigCreate`, `-Read`, `-Update`, `-Delete`).

Go pointers to strings are `Option String` (`nil` is `none`); Go's `error`
interface is the type `Error`; the mutable `*schema.ResourceData` is a value
that the callbacks take and return; the remote service behind `conn` is a
state of some type `R` together with the two calls the file makes on it.
-/

set_option autoImplicit false

namespace Route53Resolver

/-! ## Data model -/

/-- The AWS SDK helper `aws.StringValue`: the pointed-to string, or the empty
string for a nil pointer. -/
def StringValue (p : Option String) : String :=
  match p with
  | some s => s
  | none => ""

/-- The SDK record `route53resolver.FirewallConfig`; every field is a `*string`.
A value of this type is a non-nil record: the SDK hands out pointers to
records it has unmarshalled. -/
structure FirewallConfig where
  FirewallFailOpen : Option String
  Id : Option String
  OwnerId : Option String
  ResourceId : Option String
  deriving DecidableEq, Repr

/-- The SDK record `route53resolver.ListFirewallConfigsOutput`, one page of the
listing. The continuation token is not kept: its part is played by the
position of the page in the `Listing`. -/
structure ListFirewallConfigsOutput where
  FirewallConfigs : List FirewallConfig
  deriving DecidableEq, Repr

/-- Go errors as this file meets them: the `*resource.NotFoundError` that
`FindFirewallConfigByID` builds, and any other error, known by its text. -/
inductive Error where
  | notFound
  | other (text : String)
  deriving DecidableEq, Repr

/-- The method `Error()` of an error; for `&resource.NotFoundError{LastRequest: input}`
(no message, no retries) the plugin SDK prints the fixed text below. -/
def Error.text : Error → String
  | .notFound => "couldn't find resource"
  | .other t => t

/-- Modelled from the spec: `tfresource.NotFound` lives in `internal/tfresource`,
which is not among the sources; the spec's error kind `NotFound` ("the
referenced record does not exist remotely") is the `*resource.NotFoundError`,
and the helper reports whether an error (nil included) is of that kind. -/
def NotFound (err : Option Error) : Bool :=
  match err with
  | some Error.notFound => true
  | _ => false

/-- One enumeration of the remote list endpoint as the paginator sees it: the
pages that are delivered, in order (a page may be a nil pointer), and the
error, if any, with which the request after the last delivered page fails. -/
structure Listing where
  pages : List (Option ListFirewallConfigsOutput)
  err : Option Error
  deriving DecidableEq, Repr

/-! ## The SDK paginator -/

/-- What a run of the paginator leaves behind: the state of the variables the
callback closes over, the number of pages handed to the callback (a ghost
counter, not in the source), and the error the call returns. -/
structure PagesResult (σ : Type) where
  state : σ
  visited : Nat
  err : Option Error

/-- The loop of the SDK's `ListFirewallConfigsPagesWithContext`,
`for p.Next() { if !fn(p.Page(), !p.HasNextPage()) { break } }; return p.Err()`.
`p.Next()` delivers the next page, or stops the loop when there is none or
when the request fails; `lastPage` is true on a page with no continuation
token, that is the final delivered page of a listing that does not fail. The
callback is a function of the captured state, the page and `lastPage`. -/
def pagesLoop {σ : Type} (fn : σ → Option ListFirewallConfigsOutput → Bool → σ × Bool)
    (err : Option Error) : List (Option ListFirewallConfigsOutput) → σ → Nat → PagesResult σ
  | [], s, n => ⟨s, n, err⟩
  | p :: rest, s, n =>
    let lastPage := rest.isEmpty && err.isNone
    let r := fn s p lastPage
    if r.2 then pagesLoop fn err rest r.1 (n + 1) else ⟨r.1, n + 1, none⟩

/-- The call `conn.ListFirewallConfigsPagesWithContext(ctx, input, fn)` run against
a listing. -/
def ListFirewallConfigsPagesWithContext {σ : Type} (l : Listing)
    (fn : σ → Option ListFirewallConfigsOutput → Bool → σ × Bool) (s : σ) : PagesResult σ :=
  pagesLoop fn l.err l.pages s 0

/-! ## FindFirewallConfigByID -/

/-- The `for _, v := range page.FirewallConfigs` loop of the callback: the first
record whose id, read with `aws.StringValue`, equals `id`. -/
def scanPage (id : String) : List FirewallConfig → Option FirewallConfig
  | [] => none
  | v :: vs => if StringValue v.Id = id then some v else scanPage id vs

/-- The page callback of `FindFirewallConfigByID`; `output` is the variable it
closes over. The boolean tells the paginator whether to go on. -/
def findCallback (id : String) (output : Option FirewallConfig)
    (page : Option ListFirewallConfigsOutput) (lastPage : Bool) : Option FirewallConfig × Bool :=
  match page with
  | none => (output, !lastPage)
  | some pg =>
    match scanPage id pg.FirewallConfigs with
    | some v => (some v, false)
    | none => (output, !lastPage)

/-- The paginated call as `FindFirewallConfigByID` makes it, with `output`
starting as nil. -/
def findRun (l : Listing) (id : String) : PagesResult (Option FirewallConfig) :=
  ListFirewallConfigsPagesWithContext l (findCallback id) none

/-- The function `FindFirewallConfigByID(ctx, conn, id)`, with `conn`'s listing given as `l`.
Go's pair `(*FirewallConfig, error)` is an `Except`: `(nil, err)` is
`.error err` and `(output, nil)` is `.ok output`. -/
def FindFirewallConfigByID (l : Listing) (id : String) : Except Error FirewallConfig :=
  let r := findRun l id
  match r.err with
  | some e => .error e
  | none =>
    match r.state with
    | none => .error Error.notFound
    | some v => .ok v

/-! ## The resource data and the remote calls -/

/-- The three attributes of the resource schema. -/
inductive Attr where
  | firewall_fail_open
  | owner_id
  | resource_id
  deriving DecidableEq, Repr

/-- The `*schema.ResourceData` of one callback: the id, the new-resource mark
and the three string attributes, each unset (`none`) or set. -/
structure ResourceData where
  id : String
  isNewResource : Bool
  firewall_fail_open : Option String
  owner_id : Option String
  resource_id : Option String
  deriving DecidableEq, Repr

namespace ResourceData

/-- The method `d.Id()`. -/
def Id (d : ResourceData) : String := d.id

/-- The method `d.SetId(v)`. -/
def SetId (d : ResourceData) (v : String) : ResourceData := { d with id := v }

/-- The method `d.IsNewResource()`. -/
def IsNewResource (d : ResourceData) : Bool := d.isNewResource

/-- The read `d.Get(key).(string)`: the value of a string attribute, the zero value `""`
when it is unset. -/
def Get (d : ResourceData) : Attr → String
  | .firewall_fail_open => StringValue d.firewall_fail_open
  | .owner_id => StringValue d.owner_id
  | .resource_id => StringValue d.resource_id

/-- The read `d.GetOk(key)`: the value, and whether it is set to something other than
the zero value. -/
def GetOk (d : ResourceData) (key : Attr) : String × Bool :=
  (d.Get key, decide (d.Get key ≠ ""))

/-- The write `d.Set(key, value)` with a `*string` value: a nil pointer makes the
attribute unset. -/
def Set (d : ResourceData) (key : Attr) (value : Option String) : ResourceData :=
  match key with
  | .firewall_fail_open => { d with firewall_fail_open := value }
  | .owner_id => { d with owner_id := value }
  | .resource_id => { d with resource_id := value }

end ResourceData

/-- Severity of a diagnostic, as in the plugin SDK's `diag` package. -/
inductive Severity where
  | Error
  | Warning
  deriving DecidableEq, Repr

/-- One `diag.Diagnostic`. -/
structure Diagnostic where
  Severity : Severity
  Summary : String
  deriving DecidableEq, Repr

/-- The type `diag.Diagnostics`; Go's `nil` is the empty list. -/
abbrev Diagnostics := List Diagnostic

/-- The constructor `diag.Errorf(format, a...)`: a single error diagnostic whose summary is
the formatted text; the caller passes the text already formatted. -/
def Errorf (summary : String) : Diagnostics := [⟨Severity.Error, summary⟩]

/-- The SDK record `route53resolver.UpdateFirewallConfigInput`. -/
structure UpdateFirewallConfigInput where
  FirewallFailOpen : Option String
  ResourceId : Option String
  deriving DecidableEq, Repr

/-- The SDK record `route53resolver.UpdateFirewallConfigOutput`; on success the
SDK returns it with its `FirewallConfig` set. -/
structure UpdateFirewallConfigOutput where
  FirewallConfig : FirewallConfig
  deriving DecidableEq, Repr

/-- The SDK constant `route53resolver.FirewallFailOpenStatusDisabled`. -/
def FirewallFailOpenStatusDisabled : String := "DISABLED"

/-- The connection `conn` over a remote state `R`: the upsert call, which may
change the remote state and answers with an output or an error, and the
listing the list endpoint serves in a given remote state. -/
structure Conn (R : Type) where
  UpdateFirewallConfig : R → UpdateFirewallConfigInput → R × Except Error UpdateFirewallConfigOutput
  ListFirewallConfigs : R → Listing

/-- A remote call made by a callback (a ghost record, not in the source). -/
inductive Call where
  | update (input : UpdateFirewallConfigInput)
  | list
  deriving DecidableEq, Repr

/-- What a lifecycle callback leaves behind: the resource data, the remote
state, the remote calls it made in order, and the diagnostics it returns. -/
structure Outcome (R : Type) where
  d : ResourceData
  remote : R
  calls : List Call
  diags : Diagnostics

/-- The error of a Go result pair, nil when there is none. -/
def errOf {α : Type} : Except Error α → Option Error
  | .error e => some e
  | .ok _ => none

/-! ## The lifecycle callbacks -/

/-- The callback `resourceFirewallConfigRead`: look the id up, drop the id when it
is not found on a resource that is not new, fail on any other error, and
otherwise overwrite the three attributes from the record. -/
def resourceFirewallConfigRead {R : Type} (conn : Conn R) (d : ResourceData) (remote : R) :
    Outcome R :=
  let res := FindFirewallConfigByID (conn.ListFirewallConfigs remote) d.Id
  if !d.IsNewResource && NotFound (errOf res) then
    ⟨d.SetId "", remote, [Call.list], []⟩
  else
    match res with
    | .error err =>
      ⟨d, remote, [Call.list],
        Errorf ("reading Route53 Resolver Firewall Config (" ++ d.Id ++ "): " ++ err.text)⟩
    | .ok firewallConfig =>
      let d := d.Set Attr.firewall_fail_open firewallConfig.FirewallFailOpen
      let d := d.Set Attr.owner_id firewallConfig.OwnerId
      let d := d.Set Attr.resource_id firewallConfig.ResourceId
      ⟨d, remote, [Call.list], []⟩

/-- The request that Create and Update build: keyed by `resource_id`, with
`firewall_fail_open` only when `GetOk` reports it set. -/
def upsertInput (d : ResourceData) : UpdateFirewallConfigInput :=
  let input : UpdateFirewallConfigInput :=
    { ResourceId := some (d.Get Attr.resource_id), FirewallFailOpen := none }
  let (v, ok) := d.GetOk Attr.firewall_fail_open
  if ok then { input with FirewallFailOpen := some v } else input

/-- The callback `resourceFirewallConfigCreate`: upsert, take the returned id, read. -/
def resourceFirewallConfigCreate {R : Type} (conn : Conn R) (d : ResourceData) (remote : R) :
    Outcome R :=
  let input := upsertInput d
  match conn.UpdateFirewallConfig remote input with
  | (remote, .error err) =>
    ⟨d, remote, [Call.update input],
      Errorf ("creating Route53 Resolver Firewall Config: " ++ err.text)⟩
  | (remote, .ok output) =>
    let d := d.SetId (StringValue output.FirewallConfig.Id)
    let r := resourceFirewallConfigRead conn d remote
    { r with calls := Call.update input :: r.calls }

/-- The callback `resourceFirewallConfigUpdate`: upsert, drop the output, read. -/
def resourceFirewallConfigUpdate {R : Type} (conn : Conn R) (d : ResourceData) (remote : R) :
    Outcome R :=
  let input := upsertInput d
  match conn.UpdateFirewallConfig remote input with
  | (remote, .error err) =>
    ⟨d, remote, [Call.update input],
      Errorf ("updating Route53 Resolver Firewall Config: " ++ err.text)⟩
  | (remote, .ok _) =>
    let r := resourceFirewallConfigRead conn d remote
    { r with calls := Call.update input :: r.calls }

/-- The callback `resourceFirewallConfigDelete`: upsert with the fail-open status
forced to `DISABLED`. -/
def resourceFirewallConfigDelete {R : Type} (conn : Conn R) (d : ResourceData) (remote : R) :
    Outcome R :=
  let input : UpdateFirewallConfigInput :=
    { ResourceId := some (d.Get Attr.resource_id),
      FirewallFailOpen := some FirewallFailOpenStatusDisabled }
  match conn.UpdateFirewallConfig remote input with
  | (remote, .error err) =>
    ⟨d, remote, [Call.update input],
      Errorf ("deleting Route53 Resolver Firewall Config (" ++ d.Id ++ "): " ++ err.text)⟩
  | (remote, .ok _) => ⟨d, remote, [Call.update input], []⟩

/-! ## Reference definitions for the lookup -/

deriving instance DecidableEq for Except

/-- The records of the delivered pages, in page order and then in-page order;
a nil page contributes nothing. -/
def records : List (Option ListFirewallConfigsOutput) → List FirewallConfig
  | [] => []
  | none :: ps => records ps
  | some pg :: ps => pg.FirewallConfigs ++ records ps

/-- Whether a record answers a query id: its id, an absent id counting as the
empty string, equals the query id. -/
def matchesId (id : String) (v : FirewallConfig) : Bool :=
  decide (StringValue v.Id = id)

/-- The lookup as the specification words it: the first record, in page order
then in-page order, whose id equals the query id, and `NotFound` when there
is none. -/
def findFirstSpec (pages : List (Option ListFirewallConfigsOutput)) (id : String) :
    Except Error FirewallConfig :=
  match (records pages).find? (matchesId id) with
  | some v => .ok v
  | none => .error Error.notFound

/-- Whether the text `t` occurs in the text `s` as a contiguous run of
characters. -/
def occursIn (t s : String) : Bool :=
  s.data.tails.any (fun u => t.data.isPrefixOf u)

/-- Whether every diagnostic of `diags` carries every text of `texts` in its
summary. -/
def carries (diags : Diagnostics) (texts : List String) : Bool :=
  diags.all (fun g => texts.all (fun t => occursIn t g.Summary))

/-- The request that Delete builds, written out: keyed by `resource_id`, with
the fail-open status `DISABLED`. -/
def deleteInput (d : ResourceData) : UpdateFirewallConfigInput :=
  { ResourceId := some (d.Get Attr.resource_id), FirewallFailOpen := some "DISABLED" }

/-! ## A reference remote service

The service behind `conn` is not part of the repository. The specification
describes its upsert as an idempotent set-or-create keyed by the resource id
and its list call as a full enumeration; the definitions below are an
in-memory service of that kind, with switches that make either call fail,
used to run the callbacks on concrete inputs. -/

/-- Faults injected into the reference service: the error, if any, with which
every upsert fails, and the error, if any, with which every listing fails. -/
structure Faults where
  update : Option Error
  list : Option Error
  deriving DecidableEq, Repr

/-- The record the reference service creates for a resource id it has not seen:
an id derived from the resource id, a fixed owner, and the requested
fail-open status or the server default. -/
def newConfig (input : UpdateFirewallConfigInput) : FirewallConfig :=
  { Id := some ("rdsc-" ++ StringValue input.ResourceId),
    ResourceId := input.ResourceId,
    OwnerId := some "111122223333",
    FirewallFailOpen :=
      match input.FirewallFailOpen with
      | some v => some v
      | none => some "DISABLED" }

/-- Set-or-create on the stored records: the record of the resource id has its
fail-open status set when the request carries one; a record is created when
the resource id has none. Returns the new store and the record. -/
def upsertRecords (input : UpdateFirewallConfigInput) :
    List FirewallConfig → List FirewallConfig × FirewallConfig
  | [] => ([newConfig input], newConfig input)
  | c :: cs =>
    if c.ResourceId = input.ResourceId then
      let c2 : FirewallConfig :=
        match input.FirewallFailOpen with
        | some v => { c with FirewallFailOpen := some v }
        | none => c
      (c2 :: cs, c2)
    else
      ((upsertRecords input cs).1.cons c, (upsertRecords input cs).2)

/-- The reference service as a connection: the remote state is the list of
stored records, served by the list call as a single page. -/
def service (f : Faults) : Conn (List FirewallConfig) where
  UpdateFirewallConfig := fun cs input =>
    match f.update with
    | some e => (cs, .error e)
    | none => ((upsertRecords input cs).1, .ok ⟨(upsertRecords input cs).2⟩)
  ListFirewallConfigs := fun cs =>
    match f.list with
    | some e => ⟨[], some e⟩
    | none => ⟨[some ⟨cs⟩], none⟩

/-- The fail-open status the reference service stores for a resource id. -/
def failOpenOf (cs : List FirewallConfig) (resourceId : Option String) : Option String :=
  match cs.find? (fun c => decide (c.ResourceId = resourceId)) with
  | some c => c.FirewallFailOpen
  | none => none

/-- The contract "idempotent set-or-create" of the upsert call, for a
connection `conn` whose stored fail-open status is observed by `obs`: every
upsert succeeds, the status it carries is the stored status afterwards, and
repeating the request changes neither the remote state nor the answer. -/
def IsSetOrCreate {R : Type} (conn : Conn R) (obs : R → Option String → Option String) : Prop :=
  ∀ (r : R) (input : UpdateFirewallConfigInput), ∃ (r2 : R) (out : UpdateFirewallConfigOutput),
    conn.UpdateFirewallConfig r input = (r2, .ok out) ∧
    (∀ v, input.FirewallFailOpen = some v → obs r2 input.ResourceId = some v) ∧
    conn.UpdateFirewallConfig r2 input = (r2, .ok out)

/-! ## Concrete inputs -/

/-- A stored record with fail-open enabled. -/
def cfgA : FirewallConfig :=
  ⟨some "ENABLED", some "rdsc-a", some "111122223333", some "rslvr-fdpc-a"⟩

/-- A second stored record. -/
def cfgB : FirewallConfig :=
  ⟨some "DISABLED", some "rdsc-b", some "111122223333", some "rslvr-fdpc-b"⟩

/-- A third stored record. -/
def cfgC : FirewallConfig :=
  ⟨some "USE_LOCAL_RESOURCE_SETTING", some "rdsc-c", some "111122223333", some "rslvr-fdpc-c"⟩

/-- A record that shares the id of `cfgB` and differs in its resource id. -/
def cfgB2 : FirewallConfig :=
  ⟨some "ENABLED", some "rdsc-b", some "111122223333", some "rslvr-fdpc-other"⟩

/-- A record whose id is absent. -/
def cfgNoId : FirewallConfig :=
  ⟨some "ENABLED", none, some "111122223333", some "rslvr-fdpc-n"⟩

/-- Four delivered pages, the second of them nil. -/
def pages4 : List (Option ListFirewallConfigsOutput) :=
  [some ⟨[cfgA]⟩, none, some ⟨[cfgC, cfgB]⟩, some ⟨[cfgNoId]⟩]

/-- Local data of a resource about to be created: no id yet, marked new,
only `resource_id` configured. -/
def dFresh : ResourceData :=
  { id := "", isNewResource := true, firewall_fail_open := none, owner_id := none,
    resource_id := some "rslvr-fdpc-abc123" }

/-- Local data of a resource about to be created with `firewall_fail_open`
configured as well. -/
def dFreshEnabled : ResourceData :=
  { id := "", isNewResource := true, firewall_fail_open := some "ENABLED", owner_id := none,
    resource_id := some "rslvr-fdpc-abc123" }

/-- A remote state of the reference service whose one record already bears the
id that the service will give to the resource `rslvr-fdpc-abc123`, under
another resource id. -/
def remoteDup : List FirewallConfig :=
  [⟨some "ENABLED", some "rdsc-rslvr-fdpc-abc123", some "111122223333", some "rslvr-fdpc-other"⟩]

/-- Local data of an existing resource. -/
def dExisting : ResourceData :=
  { id := "rdsc-abc", isNewResource := false, firewall_fail_open := some "ENABLED",
    owner_id := some "111122223333", resource_id := some "rslvr-fdpc-abc123" }

/-- A remote state of the reference service that holds the record of `dExisting`. -/
def remoteAbc : List FirewallConfig :=
  [cfgA, ⟨some "USE_LOCAL_RESOURCE_SETTING", some "rdsc-abc", some "111122223333",
    some "rslvr-fdpc-abc123"⟩]

/-! ## Lemmas on the page scan -/

theorem scanPage_eq_find (id : String) (l : List FirewallConfig) :
    scanPage id l = l.find? (matchesId id) := by
  induction l with
  | nil => rfl
  | cons v vs ih =>
    by_cases h : StringValue v.Id = id
    · simp [scanPage, matchesId, h]
    · simp [scanPage, matchesId, h, ih]

theorem scanPage_none_iff {id : String} {l : List FirewallConfig} :
    scanPage id l = none ↔ ∀ v ∈ l, StringValue v.Id ≠ id := by
  rw [scanPage_eq_find, List.find?_eq_none]
  simp [matchesId]

theorem records_append (ps qs : List (Option ListFirewallConfigsOutput)) :
    records (ps ++ qs) = records ps ++ records qs := by
  induction ps with
  | nil => rfl
  | cons p ps ih =>
    cases p with
    | none => simpa [records] using ih
    | some pg => simp [records, ih]

/-- A run over pages none of which holds a match hands every page to the
callback, leaves `output` as it was and returns the error of the listing. -/
theorem pagesLoop_no_match (id : String) (err : Option Error)
    (pages : List (Option ListFirewallConfigsOutput))
    (h : ∀ v ∈ records pages, StringValue v.Id ≠ id)
    (out : Option FirewallConfig) (n : Nat) :
    pagesLoop (findCallback id) err pages out n = ⟨out, n + pages.length, err⟩ := by
  induction pages generalizing n with
  | nil => simp [pagesLoop]
  | cons p rest ih =>
    have hrest : ∀ v ∈ records rest, StringValue v.Id ≠ id := by
      intro v hv
      apply h
      cases p with
      | none => simpa [records] using hv
      | some pg => simp [records, hv]
    have hcb : ∀ last, findCallback id out p last = (out, !last) := by
      intro last
      cases p with
      | none => rfl
      | some pg =>
        have hs : scanPage id pg.FirewallConfigs = none := by
          rw [scanPage_none_iff]
          intro v hv
          apply h
          simp [records, hv]
        simp [findCallback, hs]
    rw [pagesLoop]
    simp only [hcb]
    cases rest with
    | nil =>
      cases err with
      | none => simp
      | some e => simp [pagesLoop]
    | cons q qs =>
      have := ih hrest (n + 1)
      simp only [List.isEmpty_cons, Bool.false_and, Bool.not_false, if_true, this]
      simp [Nat.add_assoc, Nat.add_comm]

/-- A run stops on the first page that holds a match, with the first matching
record of that page in `output` and no error, whatever comes after. -/
theorem pagesLoop_match (id : String) (err : Option Error)
    (pre post : List (Option ListFirewallConfigsOutput)) (pg : ListFirewallConfigsOutput)
    (v : FirewallConfig)
    (hpre : ∀ w ∈ records pre, StringValue w.Id ≠ id)
    (hv : scanPage id pg.FirewallConfigs = some v)
    (out : Option FirewallConfig) (n : Nat) :
    pagesLoop (findCallback id) err (pre ++ some pg :: post) out n
      = ⟨some v, n + pre.length + 1, none⟩ := by
  induction pre generalizing n with
  | nil =>
    simp [pagesLoop, findCallback, hv]
  | cons p rest ih =>
    have hrest : ∀ w ∈ records rest, StringValue w.Id ≠ id := by
      intro w hw
      apply hpre
      cases p with
      | none => simpa [records] using hw
      | some pg => simp [records, hw]
    have hcb : ∀ last, findCallback id out p last = (out, !last) := by
      intro last
      cases p with
      | none => rfl
      | some pg =>
        have hs : scanPage id pg.FirewallConfigs = none := by
          rw [scanPage_none_iff]
          intro w hw
          apply hpre
          simp [records, hw]
        simp [findCallback, hs]
    have := ih hrest (n + 1)
    rw [List.cons_append, pagesLoop]
    simp only [hcb]
    simp [this, Nat.add_assoc, Nat.add_comm, Nat.add_left_comm]

/-- A listing either holds no match, or splits at the first page with a match. -/
theorem pages_split (id : String) (pages : List (Option ListFirewallConfigsOutput)) :
    (∀ v ∈ records pages, StringValue v.Id ≠ id) ∨
    ∃ pre pg post v, pages = pre ++ some pg :: post ∧
      (∀ w ∈ records pre, StringValue w.Id ≠ id) ∧ scanPage id pg.FirewallConfigs = some v := by
  induction pages with
  | nil => left; simp [records]
  | cons p rest ih =>
    cases p with
    | none =>
      rcases ih with h | ⟨pre, pg, post, v, hp, hpre, hv⟩
      · left; simpa [records] using h
      · right
        exact ⟨none :: pre, pg, post, v, by simp [hp], by simpa [records] using hpre, hv⟩
    | some pg =>
      cases hs : scanPage id pg.FirewallConfigs with
      | some v => right; exact ⟨[], pg, rest, v, rfl, by simp [records], hs⟩
      | none =>
        have hpg := scanPage_none_iff.mp hs
        rcases ih with h | ⟨pre, pg2, post, v, hp, hpre, hv⟩
        · left
          intro v hv
          simp only [records, List.mem_append] at hv
          rcases hv with hv | hv
          · exact hpg v hv
          · exact h v hv
        · right
          refine ⟨some pg :: pre, pg2, post, v, by simp [hp], ?_, hv⟩
          intro w hw
          simp only [records, List.mem_append] at hw
          rcases hw with hw | hw
          · exact hpg w hw
          · exact hpre w hw

theorem find_records_no_match {id : String} {pages : List (Option ListFirewallConfigsOutput)}
    (h : ∀ v ∈ records pages, StringValue v.Id ≠ id) :
    (records pages).find? (matchesId id) = none := by
  rw [List.find?_eq_none]
  intro v hv
  simpa [matchesId] using h v hv

theorem find_records_match {id : String} {pre post : List (Option ListFirewallConfigsOutput)}
    {pg : ListFirewallConfigsOutput} {v : FirewallConfig}
    (hpre : ∀ w ∈ records pre, StringValue w.Id ≠ id)
    (hv : scanPage id pg.FirewallConfigs = some v) :
    (records (pre ++ some pg :: post)).find? (matchesId id) = some v := by
  rw [scanPage_eq_find] at hv
  rw [records_append, List.find?_append, find_records_no_match hpre]
  simp [records, List.find?_append, hv]

theorem find_unique_of_countP {p : FirewallConfig → Bool} {l : List FirewallConfig}
    {v r : FirewallConfig} (hc : l.countP p = 1) (hf : l.find? p = some v)
    (hr : r ∈ l) (hp : p r = true) : v = r := by
  induction l with
  | nil => simp at hr
  | cons x xs ih =>
    by_cases hx : p x = true
    · simp only [List.find?_cons, hx, Option.some.injEq] at hf
      rw [List.countP_cons_of_pos _ _ hx] at hc
      have h0 : xs.countP p = 0 := by omega
      rw [List.countP_eq_zero] at h0
      rcases List.mem_cons.mp hr with h | h
      · rw [← hf, h]
      · exact absurd hp (h0 r h)
    · have hx2 : p x = false := by simpa using hx
      simp only [List.find?_cons, hx2] at hf
      rw [List.countP_cons_of_neg _ _ hx] at hc
      rcases List.mem_cons.mp hr with h | h
      · rw [h] at hp; exact absurd hp hx
      · exact ih hc hf h

/-- The lookup on a listing that does not fail and holds no match is `NotFound`. -/
theorem find_notFound_of_no_match (l : Listing) (id : String) (herr : l.err = none)
    (h : ∀ v ∈ records l.pages, StringValue v.Id ≠ id) :
    FindFirewallConfigByID l id = .error Error.notFound := by
  have hrun := pagesLoop_no_match id l.err l.pages h none 0
  rw [herr] at hrun
  simp [FindFirewallConfigByID, findRun, ListFirewallConfigsPagesWithContext, hrun, herr]

/-- Read after a successful lookup: the three attributes are overwritten. -/
theorem read_of_ok {R : Type} (conn : Conn R) (d : ResourceData) (remote : R)
    (fc : FirewallConfig)
    (h : FindFirewallConfigByID (conn.ListFirewallConfigs remote) d.Id = .ok fc) :
    resourceFirewallConfigRead conn d remote =
      ⟨{ d with firewall_fail_open := fc.FirewallFailOpen, owner_id := fc.OwnerId,
                resource_id := fc.ResourceId }, remote, [Call.list], []⟩ := by
  simp [resourceFirewallConfigRead, h, errOf, NotFound, ResourceData.Set]

/-- Read after a lookup that reports `NotFound`, on a resource not marked new. -/
theorem read_of_notFound_old {R : Type} (conn : Conn R) (d : ResourceData) (remote : R)
    (h : FindFirewallConfigByID (conn.ListFirewallConfigs remote) d.Id = .error Error.notFound)
    (hnew : d.isNewResource = false) :
    resourceFirewallConfigRead conn d remote = ⟨d.SetId "", remote, [Call.list], []⟩ := by
  simp [resourceFirewallConfigRead, h, errOf, NotFound, ResourceData.IsNewResource, hnew]

/-- Read after a failed lookup that is not recovered: the error is reported
and nothing else changes. -/
theorem read_of_error {R : Type} (conn : Conn R) (d : ResourceData) (remote : R) (e : Error)
    (h : FindFirewallConfigByID (conn.ListFirewallConfigs remote) d.Id = .error e)
    (hrec : d.isNewResource = true ∨ e ≠ Error.notFound) :
    resourceFirewallConfigRead conn d remote =
      ⟨d, remote, [Call.list],
        Errorf ("reading Route53 Resolver Firewall Config (" ++ d.Id ++ "): " ++ e.text)⟩ := by
  rcases hrec with hnew | hne
  · simp [resourceFirewallConfigRead, h, errOf, ResourceData.IsNewResource, hnew]
  · cases e with
    | notFound => exact absurd rfl hne
    | other t => simp [resourceFirewallConfigRead, h, errOf, NotFound]

/-- A Read that returns diagnostics failed in its lookup, was not recovered,
and reports exactly that failure. -/
theorem read_diags_cases {R : Type} (conn : Conn R) (d : ResourceData) (remote : R)
    (h : (resourceFirewallConfigRead conn d remote).diags ≠ []) :
    ∃ e, FindFirewallConfigByID (conn.ListFirewallConfigs remote) d.Id = .error e ∧
      (d.isNewResource = true ∨ e ≠ Error.notFound) := by
  cases hf : FindFirewallConfigByID (conn.ListFirewallConfigs remote) d.Id with
  | ok fc => rw [read_of_ok conn d remote fc hf] at h; exact absurd rfl h
  | error e =>
    refine ⟨e, rfl, ?_⟩
    by_cases hnew : d.isNewResource = true
    · exact Or.inl hnew
    · right
      intro he
      subst he
      rw [read_of_notFound_old conn d remote hf (by simpa using hnew)] at h
      exact absurd rfl h

/-- Upserting into the stored records is a set-or-create: the status carried
by the request is stored afterwards, and repeating the request changes nothing. -/
theorem upsertRecords_spec (input : UpdateFirewallConfigInput) (cs : List FirewallConfig) :
    (∀ v, input.FirewallFailOpen = some v →
      failOpenOf (upsertRecords input cs).1 input.ResourceId = some v) ∧
    upsertRecords input (upsertRecords input cs).1 = upsertRecords input cs := by
  induction cs with
  | nil =>
    constructor
    · intro v hv
      simp [upsertRecords, failOpenOf, newConfig, hv]
    · cases hfo : input.FirewallFailOpen <;> simp [upsertRecords, newConfig, hfo]
  | cons c cs ih =>
    by_cases hc : c.ResourceId = input.ResourceId
    · constructor
      · intro v hv
        simp [upsertRecords, failOpenOf, hc, hv]
      · cases hfo : input.FirewallFailOpen <;> simp [upsertRecords, hc, hfo]
    · constructor
      · intro v hv
        have := ih.1 v hv
        simp only [failOpenOf] at this
        simp [upsertRecords, failOpenOf, hc, this]
      · simp [upsertRecords, hc, ih.2]

/-- The reference service without faults meets the set-or-create contract. -/
theorem service_isSetOrCreate : IsSetOrCreate (service ⟨none, none⟩) failOpenOf := by
  intro r input
  refine ⟨(upsertRecords input r).1, ⟨(upsertRecords input r).2⟩, rfl, ?_, ?_⟩
  · exact (upsertRecords_spec input r).1
  · simp [service, (upsertRecords_spec input r).2]

/-- The lookup returns the first record of the delivered pages that has the
query id, whether or not the listing fails later. -/
theorem find_ok_of_first (l : Listing) (id : String) (v : FirewallConfig)
    (h : (records l.pages).find? (matchesId id) = some v) :
    FindFirewallConfigByID l id = .ok v := by
  rcases pages_split id l.pages with hno | ⟨pre, pg, post, w, hp, hpre, hw⟩
  · rw [find_records_no_match hno] at h
    exact absurd h (by simp)
  · have hrun := pagesLoop_match id l.err pre post pg w hpre hw none 0
    rw [hp, find_records_match hpre hw] at h
    cases h
    simp [FindFirewallConfigByID, findRun, ListFirewallConfigsPagesWithContext, hp, hrun]

/-- The request of Create and Update, written out. -/
theorem upsertInput_eq (d : ResourceData) :
    upsertInput d =
      { ResourceId := some (d.Get Attr.resource_id),
        FirewallFailOpen :=
          if d.Get Attr.firewall_fail_open = "" then none
          else some (d.Get Attr.firewall_fail_open) } := by
  by_cases h : d.Get Attr.firewall_fail_open = "" <;>
    simp [upsertInput, ResourceData.GetOk, h]

/-- Create when its upsert fails: the error is reported, nothing else is done. -/
theorem create_of_update_error {R : Type} (conn : Conn R) (d : ResourceData) (remote r2 : R)
    (e : Error) (h : conn.UpdateFirewallConfig remote (upsertInput d) = (r2, .error e)) :
    resourceFirewallConfigCreate conn d remote =
      ⟨d, r2, [Call.update (upsertInput d)],
        Errorf ("creating Route53 Resolver Firewall Config: " ++ e.text)⟩ := by
  simp only [resourceFirewallConfigCreate, h]

/-- Create when its upsert succeeds: the returned id is stored, then Read runs. -/
theorem create_of_update_ok {R : Type} (conn : Conn R) (d : ResourceData) (remote r2 : R)
    (out : UpdateFirewallConfigOutput)
    (h : conn.UpdateFirewallConfig remote (upsertInput d) = (r2, .ok out)) :
    resourceFirewallConfigCreate conn d remote =
      { resourceFirewallConfigRead conn (d.SetId (StringValue out.FirewallConfig.Id)) r2 with
        calls := Call.update (upsertInput d) ::
          (resourceFirewallConfigRead conn
            (d.SetId (StringValue out.FirewallConfig.Id)) r2).calls } := by
  simp only [resourceFirewallConfigCreate, h]

/-- Update when its upsert fails: the error is reported, nothing else is done. -/
theorem update_of_update_error {R : Type} (conn : Conn R) (d : ResourceData) (remote r2 : R)
    (e : Error) (h : conn.UpdateFirewallConfig remote (upsertInput d) = (r2, .error e)) :
    resourceFirewallConfigUpdate conn d remote =
      ⟨d, r2, [Call.update (upsertInput d)],
        Errorf ("updating Route53 Resolver Firewall Config: " ++ e.text)⟩ := by
  simp only [resourceFirewallConfigUpdate, h]

/-- Update when its upsert succeeds: Read runs on the unchanged local data. -/
theorem update_of_update_ok {R : Type} (conn : Conn R) (d : ResourceData) (remote r2 : R)
    (out : UpdateFirewallConfigOutput)
    (h : conn.UpdateFirewallConfig remote (upsertInput d) = (r2, .ok out)) :
    resourceFirewallConfigUpdate conn d remote =
      { resourceFirewallConfigRead conn d r2 with
        calls := Call.update (upsertInput d) :: (resourceFirewallConfigRead conn d r2).calls } := by
  simp only [resourceFirewallConfigUpdate, h]

/-- Delete, by the answer to its upsert. -/
theorem delete_cases {R : Type} (conn : Conn R) (d : ResourceData) (remote r2 : R)
    (res : Except Error UpdateFirewallConfigOutput)
    (h : conn.UpdateFirewallConfig remote (deleteInput d) = (r2, res)) :
    resourceFirewallConfigDelete conn d remote =
      ⟨d, r2, [Call.update (deleteInput d)],
        match res with
        | .error e =>
          Errorf ("deleting Route53 Resolver Firewall Config (" ++ d.Id ++ "): " ++ e.text)
        | .ok _ => []⟩ := by
  simp only [deleteInput] at h
  cases res <;> simp only [resourceFirewallConfigDelete, FirewallFailOpenStatusDisabled, h] <;> rfl

theorem occursIn_iff (t s : String) :
    occursIn t s = true ↔ ∃ a b : List Char, s.data = a ++ t.data ++ b := by
  simp only [occursIn, List.any_eq_true, List.mem_tails]
  constructor
  · rintro ⟨u, ⟨a, ha⟩, hu⟩
    rw [List.isPrefixOf_iff_prefix] at hu
    obtain ⟨b, hb⟩ := hu
    exact ⟨a, b, by rw [← ha, ← hb, List.append_assoc]⟩
  · rintro ⟨a, b, h⟩
    refine ⟨t.data ++ b, ⟨a, by rw [h, List.append_assoc]⟩, ?_⟩
    rw [List.isPrefixOf_iff_prefix]
    exact List.prefix_append _ _

theorem occursIn_append_left (t a b : String) (h : occursIn t a = true) :
    occursIn t (a ++ b) = true := by
  rw [occursIn_iff] at h ⊢
  obtain ⟨x, y, hxy⟩ := h
  exact ⟨x, y ++ b.data, by simp [String.data_append, hxy]⟩

theorem occursIn_append_right (t a b : String) (h : occursIn t b = true) :
    occursIn t (a ++ b) = true := by
  rw [occursIn_iff] at h ⊢
  obtain ⟨x, y, hxy⟩ := h
  exact ⟨a.data ++ x, y, by simp [String.data_append, hxy]⟩

theorem occursIn_self (t : String) : occursIn t t = true := by
  rw [occursIn_iff]
  exact ⟨[], [], by simp⟩

/-- A summary of the form `<head><id>): <text>` carries the id, the text and
whatever its head carries. -/
theorem carries_with_id (hd id text op : String) (hop : occursIn op hd = true) :
    carries [⟨Severity.Error, hd ++ id ++ "): " ++ text⟩] [op, id, text] = true := by
  have h1 : occursIn op (hd ++ id ++ "): " ++ text) = true :=
    occursIn_append_left _ _ _ (occursIn_append_left _ _ _ (occursIn_append_left _ _ _ hop))
  have h2 : occursIn id (hd ++ id ++ "): " ++ text) = true :=
    occursIn_append_left _ _ _ (occursIn_append_left _ _ _
      (occursIn_append_right _ _ _ (occursIn_self id)))
  have h3 : occursIn text (hd ++ id ++ "): " ++ text) = true :=
    occursIn_append_right _ _ _ (occursIn_self text)
  simp [carries, h1, h2, h3]

/-- A summary of the form `<head><text>` carries the text and whatever its
head carries. -/
theorem carries_without_id (hd text op : String) (hop : occursIn op hd = true) :
    carries [⟨Severity.Error, hd ++ text⟩] [op, text] = true := by
  have h1 : occursIn op (hd ++ text) = true := occursIn_append_left _ _ _ hop
  have h2 : occursIn text (hd ++ text) = true := occursIn_append_right _ _ _ (occursIn_self text)
  simp [carries, h1, h2]

/-- The helper `aws.StringValue` is the pointed-to string, or `""`. -/
theorem StringValue_eq_getD (p : Option String) : StringValue p = p.getD "" := by
  cases p <;> rfl

/-- Reading `resource_id` gives the stored value, or `""`. -/
theorem Get_resource_id_eq (d : ResourceData) :
    d.Get Attr.resource_id = d.resource_id.getD "" :=
  StringValue_eq_getD d.resource_id

/-- Reading `firewall_fail_open` gives the stored value, or `""`. -/
theorem Get_firewall_fail_open_eq (d : ResourceData) :
    d.Get Attr.firewall_fail_open = d.firewall_fail_open.getD "" :=
  StringValue_eq_getD d.firewall_fail_open

/-- Create followed by Read, in terms of the readers `d.Get` and
`aws.StringValue` of the source. -/
theorem create_then_read_core {R : Type} (conn : Conn R) (d : ResourceData)
    (remote remote2 : R) (out : UpdateFirewallConfigOutput) (v : FirewallConfig)
    (i rid : String)
    (hrid : d.Get Attr.resource_id = rid)
    (hup : conn.UpdateFirewallConfig remote
      { ResourceId := some rid,
        FirewallFailOpen :=
          if d.Get Attr.firewall_fail_open = "" then none
          else some (d.Get Attr.firewall_fail_open) } = (remote2, .ok out))
    (hid : StringValue out.FirewallConfig.Id = i)
    (hfirst : (records (conn.ListFirewallConfigs remote2).pages).find? (matchesId i) = some v)
    (hres : StringValue v.ResourceId = rid) :
    (resourceFirewallConfigCreate conn d remote).calls =
      [Call.update
        { ResourceId := some rid,
          FirewallFailOpen :=
            if d.Get Attr.firewall_fail_open = "" then none
            else some (d.Get Attr.firewall_fail_open) },
       Call.list] ∧
    (resourceFirewallConfigCreate conn d remote).diags = [] ∧
    (resourceFirewallConfigCreate conn d remote).d.Id = i ∧
    (resourceFirewallConfigCreate conn d remote).d.Get Attr.resource_id = rid ∧
    (resourceFirewallConfigCreate conn d remote).remote = remote2 ∧
    (resourceFirewallConfigRead conn (resourceFirewallConfigCreate conn d remote).d
      (resourceFirewallConfigCreate conn d remote).remote).diags = [] ∧
    (resourceFirewallConfigRead conn (resourceFirewallConfigCreate conn d remote).d
      (resourceFirewallConfigCreate conn d remote).remote).d
      = (resourceFirewallConfigCreate conn d remote).d ∧
    (resourceFirewallConfigRead conn (resourceFirewallConfigCreate conn d remote).d
      (resourceFirewallConfigCreate conn d remote).remote).d.Id = i := by
  subst hrid
  have hin := upsertInput_eq d
  have hf := find_ok_of_first (conn.ListFirewallConfigs remote2) i v hfirst
  have hread := read_of_ok conn (d.SetId i) remote2 v hf
  have hcreate : resourceFirewallConfigCreate conn d remote =
      ⟨ResourceData.mk i d.isNewResource v.FirewallFailOpen v.OwnerId v.ResourceId, remote2,
        [Call.update (upsertInput d), Call.list], []⟩ := by
    simp only [resourceFirewallConfigCreate]
    rw [hin, hup]
    simp only [hid, hread]
    rfl
  have hread2 := read_of_ok conn
    (ResourceData.mk i d.isNewResource v.FirewallFailOpen v.OwnerId v.ResourceId) remote2 v hf
  rw [hcreate, ← hin]
  have e1 := congrArg Outcome.diags hread2
  have e2 := congrArg Outcome.d hread2
  have e3 := congrArg (fun o => o.d.Id) hread2
  exact ⟨rfl, rfl, rfl, hres, rfl, e1, e2, e3⟩

/-! ## The lookup: claims C1, C2, C3, C10 -/

/-- C1: when exactly one record of the delivered pages has the query id, and it
sits on the page `pg` that follows the pages `pre`, `FindFirewallConfigByID`
returns that record without error, the callback answers "stop" on that page
whatever its other arguments, and the pages handed to the callback are `pre`
and `pg` only: none of `post` is visited. -/
theorem FindFirewallConfigByID_unique_match
    (pre post : List (Option ListFirewallConfigsOutput)) (pg : ListFirewallConfigsOutput)
    (r : FirewallConfig) (id : String)
    (hr : r ∈ pg.FirewallConfigs) (hid : StringValue r.Id = id)
    (huniq : (records (pre ++ some pg :: post)).countP (matchesId id) = 1) :
    FindFirewallConfigByID ⟨pre ++ some pg :: post, none⟩ id = .ok r ∧
    (∀ out lastPage, (findCallback id out (some pg) lastPage).2 = false) ∧
    (findRun ⟨pre ++ some pg :: post, none⟩ id).visited = pre.length + 1 := by
  have hm : matchesId id r = true := by simp [matchesId, hid]
  simp only [records_append, records, List.countP_append] at huniq
  have hpos : 0 < pg.FirewallConfigs.countP (matchesId id) :=
    List.countP_pos_iff.mpr ⟨r, hr, hm⟩
  have hpre0 : (records pre).countP (matchesId id) = 0 := by omega
  have hpg1 : pg.FirewallConfigs.countP (matchesId id) = 1 := by omega
  have hpre : ∀ w ∈ records pre, StringValue w.Id ≠ id := by
    intro w hw
    have := List.countP_eq_zero.mp hpre0 w hw
    simpa [matchesId] using this
  obtain ⟨v, hv⟩ : ∃ v, scanPage id pg.FirewallConfigs = some v := by
    cases hs : scanPage id pg.FirewallConfigs with
    | some v => exact ⟨v, rfl⟩
    | none => exact absurd hid (scanPage_none_iff.mp hs r hr)
  have hvr : v = r :=
    find_unique_of_countP hpg1 (by rw [← scanPage_eq_find]; exact hv) hr hm
  subst hvr
  have hrun := pagesLoop_match id none pre post pg v hpre hv none 0
  refine ⟨?_, ?_, ?_⟩
  · simp [FindFirewallConfigByID, findRun, ListFirewallConfigsPagesWithContext, hrun]
  · intro out lastPage
    simp [findCallback, hv]
  · simp [findRun, ListFirewallConfigsPagesWithContext, hrun]

/-- Witness of C1 on four pages, the match `cfgB` being on the third: the lookup
returns it after three pages and the fourth is not visited. -/
theorem FindFirewallConfigByID_unique_match_witness :
    (records pages4).countP (matchesId "rdsc-b") = 1 ∧
    FindFirewallConfigByID ⟨pages4, none⟩ "rdsc-b" = .ok cfgB ∧
    (∀ out lastPage, (findCallback "rdsc-b" out (some ⟨[cfgC, cfgB]⟩) lastPage).2 = false) ∧
    (findRun ⟨pages4, none⟩ "rdsc-b").visited = 3 :=
  ⟨by decide,
    FindFirewallConfigByID_unique_match [some ⟨[cfgA]⟩, none] [some ⟨[cfgNoId]⟩] ⟨[cfgC, cfgB]⟩
      cfgB "rdsc-b" (by decide) (by decide) (by decide)⟩

/-- C2: when no record of the delivered pages has the query id and the listing
does not fail, the callback answers "continue" on every page that is not the
last, every page is handed to the callback, and `FindFirewallConfigByID`
returns the `NotFound` error and no record. -/
theorem FindFirewallConfigByID_no_match
    (pages : List (Option ListFirewallConfigsOutput)) (id : String)
    (h : ∀ v ∈ records pages, StringValue v.Id ≠ id) :
    FindFirewallConfigByID ⟨pages, none⟩ id = .error Error.notFound ∧
    (findRun ⟨pages, none⟩ id).visited = pages.length ∧
    (∀ p ∈ pages, ∀ out, findCallback id out p false = (out, true)) := by
  have hrun := pagesLoop_no_match id none pages h none 0
  refine ⟨?_, ?_, ?_⟩
  · simp [FindFirewallConfigByID, findRun, ListFirewallConfigsPagesWithContext, hrun]
  · simp [findRun, ListFirewallConfigsPagesWithContext, hrun]
  · intro p hp out
    cases p with
    | none => rfl
    | some pg =>
      have hs : scanPage id pg.FirewallConfigs = none := by
        rw [scanPage_none_iff]
        intro v hv
        apply h
        obtain ⟨a, b, hab⟩ := List.append_of_mem hp
        rw [hab, records_append]
        simp [records, hv]
      simp [findCallback, hs]

/-- Witness of C2: no record of the four pages has the id `rdsc-zz`. -/
theorem FindFirewallConfigByID_no_match_witness :
    (∀ v ∈ records pages4, StringValue v.Id ≠ "rdsc-zz") ∧
    FindFirewallConfigByID ⟨pages4, none⟩ "rdsc-zz" = .error Error.notFound ∧
    (findRun ⟨pages4, none⟩ "rdsc-zz").visited = pages4.length ∧
    (∀ p ∈ pages4, ∀ out, findCallback "rdsc-zz" out p false = (out, true)) :=
  ⟨by decide, FindFirewallConfigByID_no_match pages4 "rdsc-zz" (by decide)⟩

/-- C3: when the paginated list call returns an error `e`, `FindFirewallConfigByID`
returns no record and the error `e` itself, whatever the pages delivered
before the failure hold; that error is the one the listing failed with. -/
theorem FindFirewallConfigByID_list_error (l : Listing) (id : String) (e : Error)
    (h : (ListFirewallConfigsPagesWithContext l (findCallback id) none).err = some e) :
    FindFirewallConfigByID l id = .error e ∧ l.err = some e := by
  refine ⟨?_, ?_⟩
  · simp only [FindFirewallConfigByID, findRun, h]
  · rcases pages_split id l.pages with hno | ⟨pre, pg, post, v, hp, hpre, hv⟩
    · have hrun := pagesLoop_no_match id l.err l.pages hno none 0
      simp only [ListFirewallConfigsPagesWithContext, hrun] at h
      exact h
    · have hrun := pagesLoop_match id l.err pre post pg v hpre hv none 0
      simp [ListFirewallConfigsPagesWithContext, hp, hrun] at h

/-- Witness of C3: the listing delivers the four pages and then fails while
the id `rdsc-zz` is looked up. -/
theorem FindFirewallConfigByID_list_error_witness :
    (ListFirewallConfigsPagesWithContext ⟨pages4, some (Error.other "ThrottlingException")⟩
      (findCallback "rdsc-zz") none).err = some (Error.other "ThrottlingException") ∧
    FindFirewallConfigByID ⟨pages4, some (Error.other "ThrottlingException")⟩ "rdsc-zz"
      = .error (Error.other "ThrottlingException") ∧
    (Listing.mk pages4 (some (Error.other "ThrottlingException"))).err
      = some (Error.other "ThrottlingException") :=
  ⟨by decide,
    FindFirewallConfigByID_list_error ⟨pages4, some (Error.other "ThrottlingException")⟩
      "rdsc-zz" (Error.other "ThrottlingException") (by decide)⟩

/-- C10: on every sequence of delivered pages (nil pages and repeated ids
included) and every query id, `FindFirewallConfigByID` equals the reference
lookup `findFirstSpec`: the first record in page order then in-page order
whose id, absent counting as empty, equals the query id, and `NotFound` when
there is none. On the concrete pages, the empty query id finds the record
whose id is absent, and of two records with the same id the earlier wins. -/
theorem FindFirewallConfigByID_eq_findFirstSpec :
    (∀ (pages : List (Option ListFirewallConfigsOutput)) (id : String),
      FindFirewallConfigByID ⟨pages, none⟩ id = findFirstSpec pages id) ∧
    FindFirewallConfigByID ⟨pages4, none⟩ "" = .ok cfgNoId ∧
    FindFirewallConfigByID ⟨[none, some ⟨[cfgA, cfgB2]⟩, some ⟨[cfgB]⟩], none⟩ "rdsc-b"
      = .ok cfgB2 := by
  refine ⟨?_, by decide, by decide⟩
  intro pages id
  rcases pages_split id pages with hno | ⟨pre, pg, post, v, hp, hpre, hv⟩
  · have hrun := pagesLoop_no_match id none pages hno none 0
    simp [FindFirewallConfigByID, findRun, ListFirewallConfigsPagesWithContext, hrun,
      findFirstSpec, find_records_no_match hno]
  · have hrun := pagesLoop_match id none pre post pg v hpre hv none 0
    subst hp
    simp [FindFirewallConfigByID, findRun, ListFirewallConfigsPagesWithContext, hrun,
      findFirstSpec, find_records_match hpre hv]

/-! ## Read: claims C4, C5 -/

/-- C4: when the listing succeeds and holds no record with the local id, Read on
a resource not marked new sets the local id to the empty string and returns
no diagnostics, and Read on a resource marked new returns an error
diagnostic and leaves the local data, the id included, as it was. -/
theorem resourceFirewallConfigRead_not_found {R : Type} (conn : Conn R) (d : ResourceData)
    (remote : R)
    (herr : (conn.ListFirewallConfigs remote).err = none)
    (hno : ∀ v ∈ records (conn.ListFirewallConfigs remote).pages, StringValue v.Id ≠ d.Id) :
    (d.IsNewResource = false →
      (resourceFirewallConfigRead conn d remote).d = d.SetId "" ∧
      (resourceFirewallConfigRead conn d remote).d.Id = "" ∧
      (resourceFirewallConfigRead conn d remote).diags = []) ∧
    (d.IsNewResource = true →
      (resourceFirewallConfigRead conn d remote).diags =
        [⟨Severity.Error, "reading Route53 Resolver Firewall Config (" ++ d.Id ++ "): "
          ++ Error.notFound.text⟩] ∧
      (resourceFirewallConfigRead conn d remote).d = d) := by
  have hf := find_notFound_of_no_match _ _ herr hno
  constructor
  · intro hnew
    rw [read_of_notFound_old conn d remote hf hnew]
    exact ⟨rfl, rfl, rfl⟩
  · intro hnew
    rw [read_of_error conn d remote _ hf (Or.inl hnew)]
    exact ⟨rfl, rfl⟩

/-- Witness of C4: the record of an existing resource has vanished from the
remote store, and Read drops the local id without diagnostics. -/
theorem resourceFirewallConfigRead_not_found_witness :
    ((service ⟨none, none⟩).ListFirewallConfigs [cfgA]).err = none ∧
    (∀ v ∈ records ((service ⟨none, none⟩).ListFirewallConfigs [cfgA]).pages,
      StringValue v.Id ≠ dExisting.Id) ∧
    dExisting.IsNewResource = false ∧
    (resourceFirewallConfigRead (service ⟨none, none⟩) dExisting [cfgA]).d
      = dExisting.SetId "" ∧
    (resourceFirewallConfigRead (service ⟨none, none⟩) dExisting [cfgA]).d.Id = "" ∧
    (resourceFirewallConfigRead (service ⟨none, none⟩) dExisting [cfgA]).diags = [] :=
  ⟨by decide, by decide, by decide,
    (resourceFirewallConfigRead_not_found (service ⟨none, none⟩) dExisting [cfgA]
      (by decide) (by decide)).1 (by decide)⟩

/-- C5: when the lookup finds a record for the local id, Read returns no
diagnostics, the local `firewall_fail_open`, `owner_id` and `resource_id`
become the record's fields whatever they were, the local id and the remote
state are unchanged, and a second Read against the same remote state returns
no diagnostics and the same local data. -/
theorem resourceFirewallConfigRead_found {R : Type} (conn : Conn R) (d : ResourceData)
    (remote : R) (fc : FirewallConfig)
    (h : FindFirewallConfigByID (conn.ListFirewallConfigs remote) d.Id = .ok fc) :
    (resourceFirewallConfigRead conn d remote).diags = [] ∧
    (resourceFirewallConfigRead conn d remote).d.firewall_fail_open = fc.FirewallFailOpen ∧
    (resourceFirewallConfigRead conn d remote).d.owner_id = fc.OwnerId ∧
    (resourceFirewallConfigRead conn d remote).d.resource_id = fc.ResourceId ∧
    (resourceFirewallConfigRead conn d remote).d.Id = d.Id ∧
    (resourceFirewallConfigRead conn d remote).remote = remote ∧
    (resourceFirewallConfigRead conn (resourceFirewallConfigRead conn d remote).d
      (resourceFirewallConfigRead conn d remote).remote).diags = [] ∧
    (resourceFirewallConfigRead conn (resourceFirewallConfigRead conn d remote).d
      (resourceFirewallConfigRead conn d remote).remote).d
      = (resourceFirewallConfigRead conn d remote).d := by
  have h2 := read_of_ok conn
    (ResourceData.mk d.id d.isNewResource fc.FirewallFailOpen fc.OwnerId fc.ResourceId)
    remote fc h
  rw [read_of_ok conn d remote fc h]
  refine ⟨rfl, rfl, rfl, rfl, rfl, rfl, ?_, ?_⟩
  · exact congrArg Outcome.diags h2
  · exact congrArg Outcome.d h2

/-- Witness of C5: Read of an existing resource whose remote record differs from
the local fields. -/
theorem resourceFirewallConfigRead_found_witness :
    FindFirewallConfigByID ((service ⟨none, none⟩).ListFirewallConfigs remoteAbc) dExisting.Id
      = .ok ⟨some "USE_LOCAL_RESOURCE_SETTING", some "rdsc-abc", some "111122223333",
          some "rslvr-fdpc-abc123"⟩ ∧
    (resourceFirewallConfigRead (service ⟨none, none⟩) dExisting remoteAbc).d.firewall_fail_open
      = some "USE_LOCAL_RESOURCE_SETTING" :=
  ⟨by decide,
    (resourceFirewallConfigRead_found (service ⟨none, none⟩) dExisting remoteAbc
      ⟨some "USE_LOCAL_RESOURCE_SETTING", some "rdsc-abc", some "111122223333",
        some "rslvr-fdpc-abc123"⟩ (by decide)).2.1⟩

/-! ## Create and Delete: claims C6, C7 -/

/-- C6, counterexample: Create with `resource_id = rslvr-fdpc-abc123` against a
remote that already lists a record with the id `rdsc-rslvr-fdpc-abc123`
under another resource id. The upsert succeeds and returns that id, the
listing that follows does contain a record with that id and the input
resource id, Create returns no diagnostics, and yet the local `resource_id`
ends as `rslvr-fdpc-other`: the lookup stops at the first record with the id. -/
theorem resourceFirewallConfigCreate_duplicate_id :
    dFreshEnabled.resource_id = some "rslvr-fdpc-abc123" ∧
    (service ⟨none, none⟩).UpdateFirewallConfig remoteDup
        ⟨some "ENABLED", some "rslvr-fdpc-abc123"⟩ =
      ([⟨some "ENABLED", some "rdsc-rslvr-fdpc-abc123", some "111122223333",
          some "rslvr-fdpc-other"⟩,
        ⟨some "ENABLED", some "rdsc-rslvr-fdpc-abc123", some "111122223333",
          some "rslvr-fdpc-abc123"⟩],
       .ok ⟨⟨some "ENABLED", some "rdsc-rslvr-fdpc-abc123", some "111122223333",
          some "rslvr-fdpc-abc123"⟩⟩) ∧
    (⟨some "ENABLED", some "rdsc-rslvr-fdpc-abc123", some "111122223333",
        some "rslvr-fdpc-abc123"⟩ : FirewallConfig) ∈
      records ((service ⟨none, none⟩).ListFirewallConfigs
        ((service ⟨none, none⟩).UpdateFirewallConfig remoteDup
          ⟨some "ENABLED", some "rslvr-fdpc-abc123"⟩).1).pages ∧
    (resourceFirewallConfigCreate (service ⟨none, none⟩) dFreshEnabled remoteDup).calls =
      [Call.update ⟨some "ENABLED", some "rslvr-fdpc-abc123"⟩, Call.list] ∧
    (resourceFirewallConfigCreate (service ⟨none, none⟩) dFreshEnabled remoteDup).diags = [] ∧
    (resourceFirewallConfigCreate (service ⟨none, none⟩) dFreshEnabled remoteDup).d.id
      = "rdsc-rslvr-fdpc-abc123" ∧
    (resourceFirewallConfigCreate (service ⟨none, none⟩) dFreshEnabled remoteDup).d.resource_id
      = some "rslvr-fdpc-other" := by
  decide

/-- C6, amended: Create sends one upsert request keyed by the stored
`resource_id`, which carries `firewall_fail_open` only when that attribute
is set to a non-empty value, and then lists. When the request succeeds with
a config of id `i`, and the first record with id `i` (in page order, then
in-page order) of the listing that follows has the input resource id, Create
returns no diagnostics, the local id is `i`, the local `resource_id` is the
input, and a further Read against the same remote state returns no
diagnostics and keeps the local data, the id `i` included. -/
theorem resourceFirewallConfigCreate_then_read {R : Type} (conn : Conn R) (d : ResourceData)
    (remote remote2 : R) (out : UpdateFirewallConfigOutput) (v : FirewallConfig)
    (i rid : String)
    (hrid : d.resource_id.getD "" = rid)
    (hup : conn.UpdateFirewallConfig remote
      { ResourceId := some rid,
        FirewallFailOpen :=
          if d.firewall_fail_open.getD "" = "" then none
          else some (d.firewall_fail_open.getD "") } = (remote2, .ok out))
    (hid : out.FirewallConfig.Id.getD "" = i)
    (hfirst : (records (conn.ListFirewallConfigs remote2).pages).find?
      (fun w => decide (w.Id.getD "" = i)) = some v)
    (hres : v.ResourceId.getD "" = rid) :
    (resourceFirewallConfigCreate conn d remote).calls =
      [Call.update
        { ResourceId := some rid,
          FirewallFailOpen :=
            if d.firewall_fail_open.getD "" = "" then none
            else some (d.firewall_fail_open.getD "") },
       Call.list] ∧
    (resourceFirewallConfigCreate conn d remote).diags = [] ∧
    (resourceFirewallConfigCreate conn d remote).d.id = i ∧
    (resourceFirewallConfigCreate conn d remote).d.resource_id.getD "" = rid ∧
    (resourceFirewallConfigCreate conn d remote).remote = remote2 ∧
    (resourceFirewallConfigRead conn (resourceFirewallConfigCreate conn d remote).d
      (resourceFirewallConfigCreate conn d remote).remote).diags = [] ∧
    (resourceFirewallConfigRead conn (resourceFirewallConfigCreate conn d remote).d
      (resourceFirewallConfigCreate conn d remote).remote).d
      = (resourceFirewallConfigCreate conn d remote).d ∧
    (resourceFirewallConfigRead conn (resourceFirewallConfigCreate conn d remote).d
      (resourceFirewallConfigCreate conn d remote).remote).d.id = i := by
  have hfo := Get_firewall_fail_open_eq d
  have hm : (fun w : FirewallConfig => decide (w.Id.getD "" = i)) = matchesId i := by
    funext w
    simp [matchesId, StringValue_eq_getD]
  rw [hm] at hfirst
  have core := create_then_read_core conn d remote remote2 out v i rid
    (by rw [Get_resource_id_eq]; exact hrid)
    (by rw [hfo]; exact hup)
    (by rw [StringValue_eq_getD]; exact hid)
    hfirst
    (by rw [StringValue_eq_getD]; exact hres)
  rw [hfo] at core
  obtain ⟨c1, c2, c3, c4, c5, c6, c7, c8⟩ := core
  rw [Get_resource_id_eq] at c4
  exact ⟨c1, c2, c3, c4, c5, c6, c7, c8⟩

/-- Witness of C6 as amended: Create of a fresh resource with fail-open
`ENABLED` against the empty reference service; the service answers with the
id `rdsc-rslvr-fdpc-abc123`. -/
theorem resourceFirewallConfigCreate_then_read_witness :
    (resourceFirewallConfigCreate (service ⟨none, none⟩) dFreshEnabled []).calls =
      [Call.update { ResourceId := some "rslvr-fdpc-abc123", FirewallFailOpen := some "ENABLED" },
       Call.list] ∧
    (resourceFirewallConfigCreate (service ⟨none, none⟩) dFreshEnabled []).diags = [] ∧
    (resourceFirewallConfigCreate (service ⟨none, none⟩) dFreshEnabled []).d.id
      = "rdsc-rslvr-fdpc-abc123" ∧
    (resourceFirewallConfigCreate (service ⟨none, none⟩) dFreshEnabled []).d.resource_id.getD ""
      = "rslvr-fdpc-abc123" :=
  have h := resourceFirewallConfigCreate_then_read (service ⟨none, none⟩) dFreshEnabled []
    [⟨some "ENABLED", some "rdsc-rslvr-fdpc-abc123", some "111122223333",
      some "rslvr-fdpc-abc123"⟩]
    ⟨⟨some "ENABLED", some "rdsc-rslvr-fdpc-abc123", some "111122223333",
      some "rslvr-fdpc-abc123"⟩⟩
    ⟨some "ENABLED", some "rdsc-rslvr-fdpc-abc123", some "111122223333",
      some "rslvr-fdpc-abc123"⟩
    "rdsc-rslvr-fdpc-abc123" "rslvr-fdpc-abc123"
    (by decide) (by decide) (by decide) (by decide) (by decide)
  ⟨h.1, h.2.1, h.2.2.1, h.2.2.2.1⟩

/-- C7: Delete sends one upsert request whose resource id is the stored local
`resource_id` (the empty string when it is unset) and whose fail-open status
is `DISABLED`, whatever the local `firewall_fail_open` is, and leaves the
local data alone. Against a remote whose upsert is an idempotent
set-or-create, Delete returns no diagnostics, the remote status of that
resource id is `DISABLED` afterwards, and a second Delete right after the
first again returns no diagnostics, leaves the remote state as the first
left it, and the status is still `DISABLED`. -/
theorem resourceFirewallConfigDelete_twice {R : Type} (conn : Conn R)
    (obs : R → Option String → Option String) (d : ResourceData) (remote : R) :
    (resourceFirewallConfigDelete conn d remote).calls =
      [Call.update { ResourceId := some (d.resource_id.getD ""),
                     FirewallFailOpen := some "DISABLED" }] ∧
    (resourceFirewallConfigDelete conn d remote).d = d ∧
    (IsSetOrCreate conn obs →
      (resourceFirewallConfigDelete conn d remote).diags = [] ∧
      obs (resourceFirewallConfigDelete conn d remote).remote
        (some (d.resource_id.getD "")) = some "DISABLED" ∧
      (resourceFirewallConfigDelete conn (resourceFirewallConfigDelete conn d remote).d
        (resourceFirewallConfigDelete conn d remote).remote).calls =
        [Call.update { ResourceId := some (d.resource_id.getD ""),
                       FirewallFailOpen := some "DISABLED" }] ∧
      (resourceFirewallConfigDelete conn (resourceFirewallConfigDelete conn d remote).d
        (resourceFirewallConfigDelete conn d remote).remote).diags = [] ∧
      (resourceFirewallConfigDelete conn (resourceFirewallConfigDelete conn d remote).d
        (resourceFirewallConfigDelete conn d remote).remote).remote
        = (resourceFirewallConfigDelete conn d remote).remote ∧
      obs (resourceFirewallConfigDelete conn (resourceFirewallConfigDelete conn d remote).d
        (resourceFirewallConfigDelete conn d remote).remote).remote
        (some (d.resource_id.getD "")) = some "DISABLED") := by
  have hkey : deleteInput d =
      { ResourceId := some (d.resource_id.getD ""), FirewallFailOpen := some "DISABLED" } := by
    simp only [deleteInput, Get_resource_id_eq]
  have hcalls : ∀ r : R, (resourceFirewallConfigDelete conn d r).calls =
      [Call.update { ResourceId := some (d.resource_id.getD ""),
                     FirewallFailOpen := some "DISABLED" }] := by
    intro r
    have hr := congrArg Outcome.calls (delete_cases conn d r _ _ rfl)
    rw [hr]
    exact congrArg (fun x => [Call.update x]) hkey
  have hd : (resourceFirewallConfigDelete conn d remote).d = d := by
    rw [delete_cases conn d remote _ _ rfl]
  refine ⟨hcalls remote, hd, ?_⟩
  intro hc
  obtain ⟨r2, out, h1, hobs, h2⟩ := hc remote
    { ResourceId := some (d.resource_id.getD ""), FirewallFailOpen := some "DISABLED" }
  rw [← hkey] at h1 h2
  have hdel1 : resourceFirewallConfigDelete conn d remote =
      ⟨d, r2, [Call.update (deleteInput d)], []⟩ := delete_cases conn d remote r2 _ h1
  have hdel2 : resourceFirewallConfigDelete conn d r2 =
      ⟨d, r2, [Call.update (deleteInput d)], []⟩ := delete_cases conn d r2 r2 _ h2
  have e0 := hcalls r2
  have e1 := congrArg Outcome.diags hdel2
  have e2 := congrArg Outcome.remote hdel2
  have e3 : obs (resourceFirewallConfigDelete conn d r2).remote
      (some (d.resource_id.getD "")) = some "DISABLED" := by
    rw [e2]
    exact hobs _ rfl
  rw [hdel1]
  exact ⟨rfl, hobs _ rfl, e0, e1, e2, e3⟩

/-- Witness of C7: two Deletes of the existing resource `rslvr-fdpc-abc123`,
whose local status is `ENABLED` and whose remote status is
`USE_LOCAL_RESOURCE_SETTING`, against the reference service. Both requests
are keyed by `rslvr-fdpc-abc123` and carry `DISABLED`, both succeed, and the
remote status of `rslvr-fdpc-abc123` is `DISABLED` after each. -/
theorem resourceFirewallConfigDelete_twice_witness :
    IsSetOrCreate (service ⟨none, none⟩) failOpenOf ∧
    dExisting.firewall_fail_open = some "ENABLED" ∧
    failOpenOf remoteAbc (some "rslvr-fdpc-abc123") = some "USE_LOCAL_RESOURCE_SETTING" ∧
    (resourceFirewallConfigDelete (service ⟨none, none⟩) dExisting remoteAbc).calls =
      [Call.update { ResourceId := some "rslvr-fdpc-abc123",
                     FirewallFailOpen := some "DISABLED" }] ∧
    (resourceFirewallConfigDelete (service ⟨none, none⟩) dExisting remoteAbc).diags = [] ∧
    failOpenOf (resourceFirewallConfigDelete (service ⟨none, none⟩) dExisting remoteAbc).remote
      (some "rslvr-fdpc-abc123") = some "DISABLED" ∧
    (resourceFirewallConfigDelete (service ⟨none, none⟩)
      (resourceFirewallConfigDelete (service ⟨none, none⟩) dExisting remoteAbc).d
      (resourceFirewallConfigDelete (service ⟨none, none⟩) dExisting remoteAbc).remote).calls =
      [Call.update { ResourceId := some "rslvr-fdpc-abc123",
                     FirewallFailOpen := some "DISABLED" }] ∧
    (resourceFirewallConfigDelete (service ⟨none, none⟩)
      (resourceFirewallConfigDelete (service ⟨none, none⟩) dExisting remoteAbc).d
      (resourceFirewallConfigDelete (service ⟨none, none⟩) dExisting remoteAbc).remote).diags
      = [] ∧
    failOpenOf (resourceFirewallConfigDelete (service ⟨none, none⟩)
      (resourceFirewallConfigDelete (service ⟨none, none⟩) dExisting remoteAbc).d
      (resourceFirewallConfigDelete (service ⟨none, none⟩) dExisting remoteAbc).remote).remote
      (some "rslvr-fdpc-abc123") = some "DISABLED" :=
  have h := resourceFirewallConfigDelete_twice (service ⟨none, none⟩) failOpenOf dExisting
    remoteAbc
  have h2 := h.2.2 service_isSetOrCreate
  ⟨service_isSetOrCreate, by decide, by decide, h.1, h2.1, h2.2.1, h2.2.2.1, h2.2.2.2.1,
    h2.2.2.2.2.2⟩

/-! ## Failures: claims C8, C9 -/

/-- C8, counterexample: Create of a fresh resource, with `resource_id` and
`firewall_fail_open` configured, against the reference service whose listing
is throttled. The upsert succeeds, the Read that follows fails, and Create
returns an error with the local id set and the remote store changed. -/
theorem resourceFirewallConfigCreate_error_keeps_id :
    (resourceFirewallConfigCreate
      (service ⟨none, some (Error.other "ThrottlingException: Rate exceeded")⟩)
      dFreshEnabled []).diags
      = [⟨Severity.Error, "reading Route53 Resolver Firewall Config (rdsc-rslvr-fdpc-abc123): "
          ++ "ThrottlingException: Rate exceeded"⟩] ∧
    dFreshEnabled.id = "" ∧
    (resourceFirewallConfigCreate
      (service ⟨none, some (Error.other "ThrottlingException: Rate exceeded")⟩)
      dFreshEnabled []).calls
      = [Call.update ⟨some "ENABLED", some "rslvr-fdpc-abc123"⟩, Call.list] ∧
    (resourceFirewallConfigCreate
      (service ⟨none, some (Error.other "ThrottlingException: Rate exceeded")⟩)
      dFreshEnabled []).d.id
      = "rdsc-rslvr-fdpc-abc123" ∧
    (resourceFirewallConfigCreate
      (service ⟨none, some (Error.other "ThrottlingException: Rate exceeded")⟩)
      dFreshEnabled []).d
      ≠ dFreshEnabled ∧
    (resourceFirewallConfigCreate
      (service ⟨none, some (Error.other "ThrottlingException: Rate exceeded")⟩)
      dFreshEnabled []).remote
      = [⟨some "ENABLED", some "rdsc-rslvr-fdpc-abc123", some "111122223333",
          some "rslvr-fdpc-abc123"⟩] := by
  decide

/-- C8, amended: an operation that returns an error leaves the local data as it
was before the call, except Create after a successful upsert, which has
already stored the returned id (and nothing else). Read sends no upsert, only
the listing, and leaves the remote state untouched; Create, Update and Delete
send exactly one upsert (Create and Update followed by the listing of Read
when the upsert succeeded), and the remote state they leave is the one that
upsert left: a Read failing after it undoes nothing. -/
theorem error_leaves_local_state {R : Type} (conn : Conn R) (d : ResourceData) (remote : R) :
    ((resourceFirewallConfigRead conn d remote).diags ≠ [] →
      (resourceFirewallConfigRead conn d remote).d = d ∧
      (resourceFirewallConfigRead conn d remote).remote = remote ∧
      (resourceFirewallConfigRead conn d remote).calls = [Call.list]) ∧
    ((resourceFirewallConfigDelete conn d remote).diags ≠ [] →
      (resourceFirewallConfigDelete conn d remote).d = d ∧
      (resourceFirewallConfigDelete conn d remote).remote
        = (conn.UpdateFirewallConfig remote (deleteInput d)).1 ∧
      (resourceFirewallConfigDelete conn d remote).calls = [Call.update (deleteInput d)]) ∧
    ((resourceFirewallConfigUpdate conn d remote).diags ≠ [] →
      (resourceFirewallConfigUpdate conn d remote).d = d ∧
      (resourceFirewallConfigUpdate conn d remote).remote
        = (conn.UpdateFirewallConfig remote (upsertInput d)).1 ∧
      ((∃ e, (conn.UpdateFirewallConfig remote (upsertInput d)).2 = .error e ∧
          (resourceFirewallConfigUpdate conn d remote).calls = [Call.update (upsertInput d)]) ∨
       (∃ out, (conn.UpdateFirewallConfig remote (upsertInput d)).2 = .ok out ∧
          (resourceFirewallConfigUpdate conn d remote).calls
            = [Call.update (upsertInput d), Call.list]))) ∧
    ((resourceFirewallConfigCreate conn d remote).diags ≠ [] →
      (resourceFirewallConfigCreate conn d remote).remote
        = (conn.UpdateFirewallConfig remote (upsertInput d)).1 ∧
      ((∃ e, (conn.UpdateFirewallConfig remote (upsertInput d)).2 = .error e ∧
          (resourceFirewallConfigCreate conn d remote).d = d ∧
          (resourceFirewallConfigCreate conn d remote).calls = [Call.update (upsertInput d)]) ∨
       (∃ out, (conn.UpdateFirewallConfig remote (upsertInput d)).2 = .ok out ∧
          (resourceFirewallConfigCreate conn d remote).d
            = d.SetId (StringValue out.FirewallConfig.Id) ∧
          (resourceFirewallConfigCreate conn d remote).calls
            = [Call.update (upsertInput d), Call.list]))) := by
  refine ⟨?_, ?_, ?_, ?_⟩
  · intro h
    obtain ⟨e, hf, hrec⟩ := read_diags_cases conn d remote h
    rw [read_of_error conn d remote e hf hrec]
    exact ⟨rfl, rfl, rfl⟩
  · intro _
    rw [delete_cases conn d remote _ _ rfl]
    exact ⟨rfl, rfl, rfl⟩
  · intro h
    rcases hu : conn.UpdateFirewallConfig remote (upsertInput d) with ⟨r2, res⟩
    cases res with
    | error e =>
      rw [update_of_update_error conn d remote r2 e hu]
      exact ⟨rfl, rfl, Or.inl ⟨e, rfl, rfl⟩⟩
    | ok out =>
      rw [update_of_update_ok conn d remote r2 out hu] at h ⊢
      obtain ⟨e, hf, hrec⟩ := read_diags_cases conn d r2 h
      rw [read_of_error conn d r2 e hf hrec]
      exact ⟨rfl, rfl, Or.inr ⟨out, rfl, rfl⟩⟩
  · intro h
    rcases hu : conn.UpdateFirewallConfig remote (upsertInput d) with ⟨r2, res⟩
    cases res with
    | error e =>
      rw [create_of_update_error conn d remote r2 e hu]
      exact ⟨rfl, Or.inl ⟨e, rfl, rfl, rfl⟩⟩
    | ok out =>
      rw [create_of_update_ok conn d remote r2 out hu] at h ⊢
      obtain ⟨e, hf, hrec⟩ := read_diags_cases conn _ r2 h
      rw [read_of_error conn _ r2 e hf hrec]
      exact ⟨rfl, Or.inr ⟨out, rfl, rfl, rfl⟩⟩

/-- Witness of C8 as amended, against the reference service whose listing is
throttled: a Read of an existing resource returns an error and changes
neither the local data nor the remote state; an Update of it returns an
error after its one upsert and the listing, with the local data unchanged;
a Create of a fresh resource returns an error after its one upsert, with the
remote state that upsert left. -/
theorem error_leaves_local_state_witness :
    ((resourceFirewallConfigRead (service ⟨none, some (Error.other "ThrottlingException")⟩)
      dExisting remoteAbc).diags ≠ [] ∧
    (resourceFirewallConfigRead (service ⟨none, some (Error.other "ThrottlingException")⟩)
      dExisting remoteAbc).d = dExisting ∧
    (resourceFirewallConfigRead (service ⟨none, some (Error.other "ThrottlingException")⟩)
      dExisting remoteAbc).remote = remoteAbc ∧
    (resourceFirewallConfigRead (service ⟨none, some (Error.other "ThrottlingException")⟩)
      dExisting remoteAbc).calls = [Call.list]) ∧
    ((resourceFirewallConfigUpdate (service ⟨none, some (Error.other "ThrottlingException")⟩)
      dExisting remoteAbc).diags ≠ [] ∧
    (resourceFirewallConfigUpdate (service ⟨none, some (Error.other "ThrottlingException")⟩)
      dExisting remoteAbc).calls
      = [Call.update ⟨some "ENABLED", some "rslvr-fdpc-abc123"⟩, Call.list] ∧
    (resourceFirewallConfigUpdate (service ⟨none, some (Error.other "ThrottlingException")⟩)
      dExisting remoteAbc).d = dExisting) ∧
    ((resourceFirewallConfigCreate (service ⟨none, some (Error.other "ThrottlingException")⟩)
      dFreshEnabled []).diags ≠ [] ∧
    (resourceFirewallConfigCreate (service ⟨none, some (Error.other "ThrottlingException")⟩)
      dFreshEnabled []).calls
      = [Call.update ⟨some "ENABLED", some "rslvr-fdpc-abc123"⟩, Call.list] ∧
    (resourceFirewallConfigCreate (service ⟨none, some (Error.other "ThrottlingException")⟩)
      dFreshEnabled []).remote
      = ((service ⟨none, some (Error.other "ThrottlingException")⟩).UpdateFirewallConfig []
          (upsertInput dFreshEnabled)).1) :=
  ⟨⟨by decide,
    (error_leaves_local_state (service ⟨none, some (Error.other "ThrottlingException")⟩)
      dExisting remoteAbc).1 (by decide)⟩,
   ⟨by decide, by decide,
    ((error_leaves_local_state (service ⟨none, some (Error.other "ThrottlingException")⟩)
      dExisting remoteAbc).2.2.1 (by decide)).1⟩,
   ⟨by decide, by decide,
    ((error_leaves_local_state (service ⟨none, some (Error.other "ThrottlingException")⟩)
      dFreshEnabled []).2.2.2 (by decide)).1⟩⟩

/-- C9, counterexample: an Update of an existing resource whose upsert is
denied, and a Create of a fresh resource whose upsert is denied. Each
diagnostic carries the operation name and the error text, but the one of
Update carries neither the id nor the resource id, and the one of Create
does not carry the resource id, the only identifier the resource has then. -/
theorem resourceFirewallConfigUpdate_error_without_id :
    (resourceFirewallConfigUpdate (service ⟨some (Error.other "AccessDeniedException"), none⟩)
      dExisting remoteAbc).diags
      = [⟨Severity.Error, "updating Route53 Resolver Firewall Config: AccessDeniedException"⟩] ∧
    carries (resourceFirewallConfigUpdate
      (service ⟨some (Error.other "AccessDeniedException"), none⟩) dExisting remoteAbc).diags
      ["updating", "AccessDeniedException"] = true ∧
    carries (resourceFirewallConfigUpdate
      (service ⟨some (Error.other "AccessDeniedException"), none⟩) dExisting remoteAbc).diags
      [dExisting.Id] = false ∧
    carries (resourceFirewallConfigUpdate
      (service ⟨some (Error.other "AccessDeniedException"), none⟩) dExisting remoteAbc).diags
      [dExisting.Get Attr.resource_id] = false ∧
    (resourceFirewallConfigCreate (service ⟨some (Error.other "AccessDeniedException"), none⟩)
      dFresh []).diags
      = [⟨Severity.Error, "creating Route53 Resolver Firewall Config: AccessDeniedException"⟩] ∧
    carries (resourceFirewallConfigCreate
      (service ⟨some (Error.other "AccessDeniedException"), none⟩) dFresh []).diags
      [dFresh.Get Attr.resource_id] = false := by
  decide

/-- C9, amended: every error diagnostic is a single one whose summary carries
the name of the step that failed and the text of the underlying error. A
failed lookup, in Read itself or in the Read that Create and Update run
after a successful upsert, is reported as `reading ... (<id>): <text>` with
the local id; a failed upsert of Delete as `deleting ... (<id>): <text>`
with the local id; a failed upsert of Create as `creating ...: <text>` and
of Update as `updating ...: <text>`. -/
theorem error_diagnostic_context {R : Type} (conn : Conn R) (d : ResourceData) (remote : R) :
    ((resourceFirewallConfigRead conn d remote).diags ≠ [] →
      ∃ e, FindFirewallConfigByID (conn.ListFirewallConfigs remote) d.Id = .error e ∧
        (resourceFirewallConfigRead conn d remote).diags =
          [⟨Severity.Error,
            "reading Route53 Resolver Firewall Config (" ++ d.Id ++ "): " ++ e.text⟩] ∧
        carries (resourceFirewallConfigRead conn d remote).diags
          ["reading", d.Id, e.text] = true) ∧
    ((resourceFirewallConfigDelete conn d remote).diags ≠ [] →
      ∃ e, (conn.UpdateFirewallConfig remote (deleteInput d)).2 = .error e ∧
        (resourceFirewallConfigDelete conn d remote).diags =
          [⟨Severity.Error,
            "deleting Route53 Resolver Firewall Config (" ++ d.Id ++ "): " ++ e.text⟩] ∧
        carries (resourceFirewallConfigDelete conn d remote).diags
          ["deleting", d.Id, e.text] = true) ∧
    ((resourceFirewallConfigCreate conn d remote).diags ≠ [] →
      (∃ e, (conn.UpdateFirewallConfig remote (upsertInput d)).2 = .error e ∧
        (resourceFirewallConfigCreate conn d remote).diags =
          [⟨Severity.Error, "creating Route53 Resolver Firewall Config: " ++ e.text⟩] ∧
        carries (resourceFirewallConfigCreate conn d remote).diags
          ["creating", e.text] = true) ∨
      (∃ out e, (conn.UpdateFirewallConfig remote (upsertInput d)).2 = .ok out ∧
        FindFirewallConfigByID
          (conn.ListFirewallConfigs (conn.UpdateFirewallConfig remote (upsertInput d)).1)
          (StringValue out.FirewallConfig.Id) = .error e ∧
        (resourceFirewallConfigCreate conn d remote).diags =
          [⟨Severity.Error, "reading Route53 Resolver Firewall Config ("
            ++ StringValue out.FirewallConfig.Id ++ "): " ++ e.text⟩] ∧
        carries (resourceFirewallConfigCreate conn d remote).diags
          ["reading", StringValue out.FirewallConfig.Id, e.text] = true)) ∧
    ((resourceFirewallConfigUpdate conn d remote).diags ≠ [] →
      (∃ e, (conn.UpdateFirewallConfig remote (upsertInput d)).2 = .error e ∧
        (resourceFirewallConfigUpdate conn d remote).diags =
          [⟨Severity.Error, "updating Route53 Resolver Firewall Config: " ++ e.text⟩] ∧
        carries (resourceFirewallConfigUpdate conn d remote).diags
          ["updating", e.text] = true) ∨
      (∃ out e, (conn.UpdateFirewallConfig remote (upsertInput d)).2 = .ok out ∧
        FindFirewallConfigByID
          (conn.ListFirewallConfigs (conn.UpdateFirewallConfig remote (upsertInput d)).1)
          d.Id = .error e ∧
        (resourceFirewallConfigUpdate conn d remote).diags =
          [⟨Severity.Error,
            "reading Route53 Resolver Firewall Config (" ++ d.Id ++ "): " ++ e.text⟩] ∧
        carries (resourceFirewallConfigUpdate conn d remote).diags
          ["reading", d.Id, e.text] = true)) := by
  have hreading : occursIn "reading" "reading Route53 Resolver Firewall Config (" = true := by
    decide
  have hdeleting : occursIn "deleting" "deleting Route53 Resolver Firewall Config (" = true := by
    decide
  have hcreating : occursIn "creating" "creating Route53 Resolver Firewall Config: " = true := by
    decide
  have hupdating : occursIn "updating" "updating Route53 Resolver Firewall Config: " = true := by
    decide
  refine ⟨?_, ?_, ?_, ?_⟩
  · intro h
    obtain ⟨e, hf, hrec⟩ := read_diags_cases conn d remote h
    refine ⟨e, hf, ?_⟩
    rw [read_of_error conn d remote e hf hrec]
    exact ⟨rfl, carries_with_id _ _ _ _ hreading⟩
  · intro h
    rcases hu : conn.UpdateFirewallConfig remote (deleteInput d) with ⟨r2, res⟩
    rw [delete_cases conn d remote r2 res hu] at h ⊢
    cases res with
    | error e => exact ⟨e, rfl, rfl, carries_with_id _ _ _ _ hdeleting⟩
    | ok out => exact absurd rfl h
  · intro h
    rcases hu : conn.UpdateFirewallConfig remote (upsertInput d) with ⟨r2, res⟩
    cases res with
    | error e =>
      left
      rw [create_of_update_error conn d remote r2 e hu]
      exact ⟨e, rfl, rfl, carries_without_id _ _ _ hcreating⟩
    | ok out =>
      right
      rw [create_of_update_ok conn d remote r2 out hu] at h ⊢
      obtain ⟨e, hf, hrec⟩ := read_diags_cases conn _ r2 h
      refine ⟨out, e, rfl, hf, ?_⟩
      rw [read_of_error conn _ r2 e hf hrec]
      exact ⟨rfl, carries_with_id _ _ _ _ hreading⟩
  · intro h
    rcases hu : conn.UpdateFirewallConfig remote (upsertInput d) with ⟨r2, res⟩
    cases res with
    | error e =>
      left
      rw [update_of_update_error conn d remote r2 e hu]
      exact ⟨e, rfl, rfl, carries_without_id _ _ _ hupdating⟩
    | ok out =>
      right
      rw [update_of_update_ok conn d remote r2 out hu] at h ⊢
      obtain ⟨e, hf, hrec⟩ := read_diags_cases conn d r2 h
      refine ⟨out, e, rfl, hf, ?_⟩
      rw [read_of_error conn d r2 e hf hrec]
      exact ⟨rfl, carries_with_id _ _ _ _ hreading⟩

/-- Witness of C9 as amended: a Delete whose upsert is denied reports the
operation, the local id and the error text. -/
theorem error_diagnostic_context_witness :
    (resourceFirewallConfigDelete (service ⟨some (Error.other "AccessDeniedException"), none⟩)
      dExisting remoteAbc).diags ≠ [] ∧
    ∃ e, ((service ⟨some (Error.other "AccessDeniedException"), none⟩).UpdateFirewallConfig
        remoteAbc (deleteInput dExisting)).2 = .error e ∧
      (resourceFirewallConfigDelete (service ⟨some (Error.other "AccessDeniedException"), none⟩)
        dExisting remoteAbc).diags =
        [⟨Severity.Error,
          "deleting Route53 Resolver Firewall Config (" ++ dExisting.Id ++ "): " ++ e.text⟩] ∧
      carries (resourceFirewallConfigDelete
        (service ⟨some (Error.other "AccessDeniedException"), none⟩) dExisting remoteAbc).diags
        ["deleting", dExisting.Id, e.text] = true :=
  ⟨by decide,
    (error_diagnostic_context (service ⟨some (Error.other "AccessDeniedException"), none⟩)
      dExisting remoteAbc).2.1 (by decide)⟩

end Route53Resolver
